import Mathlib

set_option linter.unusedVariables false

/-!
Verification of the persistent state model and synchronization contract of the
autonomous-project repository (files autonomous_project.py,
autonomous_project_web.py, task_sync.py, sync_tasks_to_db.py,
sync_agent_to_db.py).

The SQLite store is embedded as explicit lists of rows.  Timestamps produced by
the Python code via datetime.now() are passed in as explicit string parameters
(every operation that stamps a time takes a `now` argument); AUTOINCREMENT row
ids are modelled with explicit counters carried in the store.  Python
truthiness tests on optional strings (`if status:` treats both None and the
empty string as absent) are modelled by `optTruthy`.
-/

/-- Python truthiness of an optional string: None and the empty string are
falsy, every other string is truthy.  Mirrors `if not session_id:` /
`if status:` tests in the source. -/
def optTruthy : Option String → Bool
  | some s => s != ""
  | none => false

/-- A row of the `sessions` table (session_id, created_at, project_goal,
current_phase). -/
structure SessionRow where
  session_id : String
  created_at : String
  project_goal : String
  current_phase : String
deriving DecidableEq

/-- A row of the `agents` table.  `id` is the AUTOINCREMENT primary key;
`agent_id` is the nullable external identifier. -/
structure AgentRow where
  id : Nat
  session_id : String
  role : String
  agent_id : Option String
  started_at : String
  status : String
deriving DecidableEq

/-- A row of the `tasks` table.  `id` is the AUTOINCREMENT primary key;
`completed_at` is NULL until stamped. -/
structure TaskRow where
  id : Nat
  session_id : String
  task_id : String
  agent_role : Option String
  description : Option String
  status : String
  created_at : String
  completed_at : Option String
deriving DecidableEq

/-- The whole SQLite database: the four tables (reports are never read by the
operations under verification, so only the three relevant tables are carried)
plus the AUTOINCREMENT counters for tasks and agents. -/
structure Store where
  sessions : List SessionRow
  agents : List AgentRow
  tasks : List TaskRow
  nextTaskId : Nat
  nextAgentId : Nat
deriving DecidableEq

/-- A freshly initialised database (schema created, no rows). -/
def emptyStore : Store := ⟨[], [], [], 0, 0⟩

/-- `SELECT session_id FROM sessions ORDER BY created_at DESC LIMIT 1`:
the session id with the lexicographically greatest created_at (SQLite binary
text ordering), None when the table is empty. -/
def mostRecentSessionId (sessions : List SessionRow) : Option String :=
  (sessions.foldl
    (fun acc s =>
      match acc with
      | none => some s
      | some a => if s.created_at > a.created_at then some s else some a)
    none).map (fun s => s.session_id)

/-- The session id TaskSync.create_task falls back to when its argument is
falsy: the most recent session when one exists, else the freshly generated
timestamp string `fallbackSid`. -/
def autoSessionId (st : Store) (fallbackSid : String) : String :=
  match mostRecentSessionId st.sessions with
  | some s => s
  | none => fallbackSid

/-- task_sync.py, TaskSync.create_task: resolves the session id (argument if
truthy, else most recent session, else a freshly generated timestamp string
`fallbackSid` that is NOT inserted into the sessions table), then inserts a
task row with status 'pending' and a NULL completed_at. -/
def TaskSync.create_task (st : Store) (task_id description : String)
    (agent_role : Option String) (session_id : Option String)
    (now fallbackSid : String) : Store :=
  let sid :=
    if optTruthy session_id then session_id.getD ""
    else autoSessionId st fallbackSid
  { st with
      tasks := st.tasks ++
        [⟨st.nextTaskId, sid, task_id, agent_role, some description, "pending",
          now, none⟩],
      nextTaskId := st.nextTaskId + 1 }

/-- The effect of the dynamically built `UPDATE tasks SET ...` statement of
TaskSync.update_task / WebProjectState.update_task on a single matched row:
a truthy status argument overwrites `status` (and stamps `completed_at` when
the new status is 'completed'); truthy agent_role and description arguments
overwrite their columns; falsy arguments contribute no SET clause. -/
def updateTaskRow (status agent_role description : Option String)
    (now : String) (r : TaskRow) : TaskRow :=
  let r1 :=
    match status with
    | some s =>
        if s != "" then
          { r with
              status := s,
              completed_at := if s == "completed" then some now else r.completed_at }
        else r
    | none => r
  let r2 :=
    match agent_role with
    | some s => if s != "" then { r1 with agent_role := some s } else r1
    | none => r1
  match description with
  | some s => if s != "" then { r2 with description := some s } else r2
  | none => r2

/-- task_sync.py, TaskSync.update_task: when at least one argument is truthy,
executes `UPDATE tasks SET ... WHERE task_id = ?` — matching every row with
that task_id, in every session; with no truthy argument no statement is
executed at all. -/
def TaskSync.update_task (st : Store) (task_id : String)
    (status agent_role description : Option String) (now : String) : Store :=
  if optTruthy status || optTruthy agent_role || optTruthy description then
    { st with
        tasks := st.tasks.map
          (fun r =>
            if r.task_id == task_id then
              updateTaskRow status agent_role description now r
            else r) }
  else st

/-- task_sync.py, TaskSync.delete_task:
`DELETE FROM tasks WHERE task_id = ?` — removes every row with that task_id,
in every session. -/
def TaskSync.delete_task (st : Store) (task_id : String) : Store :=
  { st with tasks := st.tasks.filter (fun r => r.task_id != task_id) }

/-- autonomous_project_web.py, ProjectState.update_task (the web GUI's store):
its body is line-for-line the same dynamic UPDATE as TaskSync.update_task,
again matching only on task_id with no session scoping. -/
def WebProjectState.update_task (st : Store) (task_id : String)
    (status agent_role description : Option String) (now : String) : Store :=
  if optTruthy status || optTruthy agent_role || optTruthy description then
    { st with
        tasks := st.tasks.map
          (fun r =>
            if r.task_id == task_id then
              updateTaskRow status agent_role description now r
            else r) }
  else st

/-- autonomous_project.py, ProjectState.add_task: inserts a task row for the
handle's own session id; the status column is absent from the INSERT so the
schema default 'pending' applies, and completed_at starts NULL.  No duplicate
check of any kind is performed. -/
def ProjectState.add_task (st : Store) (self_session_id task_id : String)
    (agent_role description : Option String) (now : String) : Store :=
  { st with
      tasks := st.tasks ++
        [⟨st.nextTaskId, self_session_id, task_id, agent_role, description,
          "pending", now, none⟩],
      nextTaskId := st.nextTaskId + 1 }

/-- autonomous_project.py, ProjectState.complete_task:
`UPDATE tasks SET status = 'completed', completed_at = ? WHERE task_id = ? AND
session_id = ?` — unlike update_task this one IS scoped to the handle's own
session. -/
def ProjectState.complete_task (st : Store) (self_session_id task_id now : String) :
    Store :=
  { st with
      tasks := st.tasks.map
        (fun r =>
          if r.task_id == task_id && r.session_id == self_session_id then
            { r with status := "completed", completed_at := some now }
          else r) }

/-- autonomous_project.py, ProjectState.get_completed_tasks_count:
`SELECT COUNT(*) FROM tasks WHERE session_id = ? AND status = 'completed'`. -/
def ProjectState.get_completed_tasks_count (st : Store) (self_session_id : String) :
    Nat :=
  (st.tasks.filter
    (fun r => r.session_id == self_session_id && r.status == "completed")).length

/-- sync_agent_to_db.py, sync_agent: resolves the session id like create_task,
but in the empty-sessions fallback it first INSERTS the freshly generated
session row (so the agent row it appends always references an existing
session), then appends the agent row. -/
def sync_agent (st : Store) (role agent_id : String)
    (session_id : Option String) (status : String)
    (now fallbackSid : String) : Store :=
  let resolved :
      Store × String :=
    if optTruthy session_id then (st, session_id.getD "")
    else
      match mostRecentSessionId st.sessions with
      | some s => (st, s)
      | none =>
          ({ st with
              sessions := st.sessions ++
                [⟨fallbackSid, now, "Autonomous Project", "implementation"⟩] },
            fallbackSid)
  { resolved.1 with
      agents := resolved.1.agents ++
        [⟨resolved.1.nextAgentId, resolved.2, role, some agent_id, now, status⟩],
      nextAgentId := resolved.1.nextAgentId + 1 }

/-- sync_agent_to_db.py, update_agent_status:
`UPDATE agents SET status = ? WHERE agent_id = ?`, matching the nullable
external agent_id column (NULL never matches).  The returned Bool is the
reported outcome: true when rowcount > 0 (success message), false when no row
matched (the "Agent not found" message); no exception is raised either way. -/
def update_agent_status (st : Store) (agent_id status : String) :
    Store × Bool :=
  let found := st.agents.any (fun a => a.agent_id == some agent_id)
  ({ st with
      agents := st.agents.map
        (fun a =>
          if a.agent_id == some agent_id then { a with status := status } else a) },
    found)

/-- One record of the externally supplied task list, after JSON parsing.  Each
field is either absent (the key is missing) or carries a string value; this
covers every shape the claims under verification quantify over. -/
structure TaskRecord where
  id : Option String
  task_id : Option String
  subject : Option String
  description : Option String
  status : Option String
  owner : Option String
  agent_role : Option String
deriving DecidableEq

/-- The parsed top level of the reconciliation input: either a list of records
or anything else (a JSON value that is not a list, or unparseable text — both
take the same report-and-return path in the source). -/
inductive TasksJson where
  | notAList : TasksJson
  | list : List TaskRecord → TasksJson

/-- `task.get('id') or task.get('task_id')` — the Python `or` returns the
second operand whenever the first is falsy.  Identical line in
CoordinatorAgent.sync_tasks_from_json and in sync_tasks_to_db.sync_from_json. -/
def recIdent (r : TaskRecord) : Option String :=
  if optTruthy r.id then r.id else r.task_id

/-- The resolved identifier string of a record (the value `str(task_id)` the
source passes on, meaningful only when `recIdent` is truthy). -/
def tidOf (r : TaskRecord) : String := (recIdent r).getD ""

/-- CoordinatorAgent.sync_tasks_from_json:
`subject = task.get('subject', ''); description = task.get('description', subject)`
— the subject only serves as default when the description key is absent. -/
def recDescription (r : TaskRecord) : String :=
  match r.description with
  | some d => d
  | none => r.subject.getD ""

/-- `status = task.get('status', 'pending')` — shared by both sync routines. -/
def recStatus (r : TaskRecord) : String := r.status.getD "pending"

/-- sync_tasks_to_db.sync_from_json:
`description = task.get('description') or task.get('subject', 'No description')`
— truthy-or, unlike the coordinator's key-presence default. -/
def sbDescription (r : TaskRecord) : String :=
  if optTruthy r.description then r.description.getD ""
  else r.subject.getD "No description"

/-- sync_tasks_to_db.sync_from_json:
`agent_role = task.get('agent_role') or task.get('owner')`. -/
def sbRole (r : TaskRecord) : Option String :=
  if optTruthy r.agent_role then r.agent_role else r.owner

/-- The create phase of the coordinator's loop body: create the task only when
`SELECT id FROM tasks WHERE task_id = ?` (no session constraint) finds
nothing, counting the creation. -/
def syncCreateStep (now fallbackSid : String) (acc : Store × Nat)
    (r : TaskRecord) : Store × Nat :=
  if acc.1.tasks.any (fun t => t.task_id == tidOf r) then acc
  else
    (TaskSync.create_task acc.1 (tidOf r) (recDescription r) r.owner none now
        fallbackSid,
      acc.2 + 1)

/-- The status phase shared by both sync loop bodies: when the record's status
differs from 'pending', apply a status-only update for its identifier;
the reported count is untouched. -/
def syncStatusStep (now : String) (acc : Store × Nat) (r : TaskRecord) :
    Store × Nat :=
  if recStatus r != "pending" then
    (TaskSync.update_task acc.1 (tidOf r) (some (recStatus r)) none none now,
      acc.2)
  else acc

/-- One loop iteration of CoordinatorAgent.sync_tasks_from_json: skip the
record when its resolved identifier is falsy; otherwise run the
existence-checked create phase and then, independently, the status phase. -/
def syncOneRecord (now fallbackSid : String) (acc : Store × Nat)
    (r : TaskRecord) : Store × Nat :=
  if optTruthy (recIdent r) then
    syncStatusStep now (syncCreateStep now fallbackSid acc r) r
  else acc

/-- autonomous_project.py, CoordinatorAgent.sync_tasks_from_json: a non-list
top level (or a parse failure) is reported and returns with zero synced and no
store effect; a list is folded record by record.  The returned Nat is the
reported count of newly created tasks. -/
def CoordinatorAgent.sync_tasks_from_json (st : Store) (input : TasksJson)
    (now fallbackSid : String) : Store × Nat :=
  match input with
  | .notAList => (st, 0)
  | .list records => records.foldl (syncOneRecord now fallbackSid) (st, 0)

/-- One loop iteration of sync_tasks_to_db.sync_from_json: skip the record
when its resolved identifier is falsy; otherwise create the task
UNCONDITIONALLY (no existence check), run the shared status phase, and count
the record as synced. -/
def syncFromJsonOne (now fallbackSid : String) (acc : Store × Nat)
    (r : TaskRecord) : Store × Nat :=
  if optTruthy (recIdent r) then
    syncStatusStep now
      (TaskSync.create_task acc.1 (tidOf r) (sbDescription r) (sbRole r) none
          now fallbackSid,
        acc.2 + 1)
      r
  else acc

/-- sync_tasks_to_db.py, sync_from_json: same top-level shape handling as the
coordinator's routine, but each identified record is created without any
existence check and is counted. -/
def sync_from_json (st : Store) (input : TasksJson)
    (now fallbackSid : String) : Store × Nat :=
  match input with
  | .notAList => (st, 0)
  | .list records => records.foldl (syncFromJsonOne now fallbackSid) (st, 0)

/-- One store mutation, for reasoning about arbitrary interleavings of the
task-table writers. -/
inductive StoreOp where
  | addTask (self_session_id task_id : String)
      (agent_role description : Option String) (now : String)
  | updateTask (task_id : String) (status agent_role description : Option String)
      (now : String)
  | completeTask (self_session_id task_id now : String)
  | deleteTask (task_id : String)

/-- Interpret one operation on the store. -/
def applyOp (st : Store) : StoreOp → Store
  | .addTask sid tid role desc now => ProjectState.add_task st sid tid role desc now
  | .updateTask tid s role desc now => TaskSync.update_task st tid s role desc now
  | .completeTask sid tid now => ProjectState.complete_task st sid tid now
  | .deleteTask tid => TaskSync.delete_task st tid

/-- Run a sequence of operations from a starting store. -/
def applyOps (st : Store) (ops : List StoreOp) : Store :=
  ops.foldl applyOp st

/-- The referential invariant of the schema's FOREIGN KEY declarations: every
task row and every agent row names a session that exists in the sessions
table. -/
abbrev noOrphans (st : Store) : Prop :=
  (∀ t ∈ st.tasks, ∃ s ∈ st.sessions, s.session_id = t.session_id) ∧
  (∀ a ∈ st.agents, ∃ s ∈ st.sessions, s.session_id = a.session_id)

/-- A concrete store with the same external task_id "t" present in two
different sessions, where session "s2" is the most recently created one. -/
def twoSessionStore : Store :=
  ⟨[⟨"s1", "2026-01-01", "goal", "planning"⟩,
    ⟨"s2", "2026-01-02", "goal", "planning"⟩],
   [],
   [⟨0, "s1", "t", none, none, "pending", "2026-01-01", none⟩,
    ⟨1, "s2", "t", none, none, "pending", "2026-01-02", none⟩],
   2, 0⟩

/-- A concrete store holding a single agent row with external agent_id "a1". -/
def oneAgentStore : Store :=
  ⟨[⟨"s1", "2026-01-01", "goal", "planning"⟩],
   [⟨0, "s1", "builder", some "a1", "2026-01-01", "active"⟩],
   [], 0, 1⟩

/-- Sample record: identifier under the 'id' key, non-default status. -/
def wRecCompleted : TaskRecord :=
  ⟨some "t1", none, none, some "scaffold project", some "completed",
    some "builder", none⟩

/-- Sample record: identifier under the 'task_id' key, no status key. -/
def wRecPending : TaskRecord :=
  ⟨none, some "t2", some "write tests", none, none, none, none⟩

/-- Sample input list for the idempotence witness. -/
def wRecords : List TaskRecord := [wRecCompleted, wRecPending]

/-- A record carrying no identifier under either accepted key. -/
def wRecNoId : TaskRecord :=
  ⟨none, none, some "orphan subject", none, some "completed", none, none⟩

/-- A minimal record with only an identifier. -/
def wRecBare : TaskRecord := ⟨some "t1", none, none, none, none, none, none⟩

/-! ## Helper lemmas about the row-level update -/

/-- The dynamic UPDATE never changes the matched row's task_id. -/
theorem updateTaskRow_task_id (s role d : Option String) (now : String)
    (r : TaskRow) : (updateTaskRow s role d now r).task_id = r.task_id := by
  unfold updateTaskRow
  cases s <;> cases role <;> cases d <;> dsimp <;> (repeat' split) <;> rfl

/-- The dynamic UPDATE never changes the matched row's session_id. -/
theorem updateTaskRow_session_id (s role d : Option String) (now : String)
    (r : TaskRow) : (updateTaskRow s role d now r).session_id = r.session_id := by
  unfold updateTaskRow
  cases s <;> cases role <;> cases d <;> dsimp <;> (repeat' split) <;> rfl

/-- With a falsy agent_role argument the agent_role column is untouched. -/
theorem updateTaskRow_role_none (s d : Option String) (now : String)
    (r : TaskRow) : (updateTaskRow s none d now r).agent_role = r.agent_role := by
  unfold updateTaskRow
  cases s <;> cases d <;> dsimp <;> (repeat' split) <;> rfl

/-- With a falsy description argument the description column is untouched. -/
theorem updateTaskRow_desc_none (s role : Option String) (now : String)
    (r : TaskRow) : (updateTaskRow s role none now r).description = r.description := by
  unfold updateTaskRow
  cases s <;> cases role <;> dsimp <;> (repeat' split) <;> rfl

/-- With no status argument the status and completed_at columns are untouched. -/
theorem updateTaskRow_status_none (role d : Option String) (now : String)
    (r : TaskRow) :
    (updateTaskRow none role d now r).status = r.status ∧
    (updateTaskRow none role d now r).completed_at = r.completed_at := by
  unfold updateTaskRow
  cases role <;> cases d <;> dsimp <;> (repeat' split) <;> exact ⟨rfl, rfl⟩

/-- An optional string is Python-falsy exactly when it is absent or empty. -/
theorem optTruthy_eq_false_iff (o : Option String) :
    optTruthy o = false ↔ o = none ∨ o = some "" := by
  cases o with
  | none => simp [optTruthy]
  | some s => simp [optTruthy]

/-- Row update with all-falsy arguments is the identity. -/
theorem updateTaskRow_falsy (s role d : Option String) (now : String)
    (r : TaskRow) (hs : optTruthy s = false) (hr : optTruthy role = false)
    (hd : optTruthy d = false) : updateTaskRow s role d now r = r := by
  rcases (optTruthy_eq_false_iff s).mp hs with rfl | rfl <;>
    rcases (optTruthy_eq_false_iff role).mp hr with rfl | rfl <;>
      rcases (optTruthy_eq_false_iff d).mp hd with rfl | rfl <;>
        simp [updateTaskRow]

/-- TaskSync.update_task always acts as a per-row map over the tasks table:
rows whose task_id differs are untouched, matching rows get the row-level
update (with all-falsy arguments that row-level update is the identity, which
also covers the source's "no SET clause, no statement" early exit). -/
theorem update_task_tasks_eq (st : Store) (tid : String)
    (s role d : Option String) (now : String) :
    (TaskSync.update_task st tid s role d now).tasks =
      st.tasks.map
        (fun r => if r.task_id == tid then updateTaskRow s role d now r else r) := by
  unfold TaskSync.update_task
  split
  · rfl
  · rename_i h
    simp only [Bool.or_eq_true, not_or, Bool.not_eq_true] at h
    obtain ⟨⟨hs, hr⟩, hd⟩ := h
    conv_lhs => rw [← List.map_id st.tasks]
    apply List.map_congr_left
    intro t ht
    split
    · rw [updateTaskRow_falsy s role d now t hs hr hd]; rfl
    · rfl

/-- The other fields of the store are untouched by update_task. -/
theorem update_task_frame (st : Store) (tid : String)
    (s role d : Option String) (now : String) :
    (TaskSync.update_task st tid s role d now).sessions = st.sessions ∧
    (TaskSync.update_task st tid s role d now).agents = st.agents ∧
    (TaskSync.update_task st tid s role d now).nextTaskId = st.nextTaskId := by
  unfold TaskSync.update_task
  split <;> exact ⟨rfl, rfl, rfl⟩

/-- The web store's update_task is the same operation as TaskSync's. -/
theorem web_update_task_eq (st : Store) (tid : String)
    (s role d : Option String) (now : String) :
    WebProjectState.update_task st tid s role d now =
      TaskSync.update_task st tid s role d now := rfl

/-- update_task preserves the task_id column of every row. -/
theorem update_task_map_task_id (st : Store) (tid : String)
    (s role d : Option String) (now : String) :
    (TaskSync.update_task st tid s role d now).tasks.map (fun t => t.task_id) =
      st.tasks.map (fun t => t.task_id) := by
  rw [update_task_tasks_eq, List.map_map]
  apply List.map_congr_left
  intro t ht
  show (if t.task_id == tid then updateTaskRow s role d now t else t).task_id = t.task_id
  split
  · exact updateTaskRow_task_id s role d now t
  · rfl

/-- create_task appends exactly one pending row with the resolved session id
(here: the auto-resolved one, since the reconcilers always pass None). -/
theorem create_task_tasks_eq (st : Store) (tid desc : String)
    (role : Option String) (now fb : String) :
    (TaskSync.create_task st tid desc role none now fb).tasks =
      st.tasks ++
        [⟨st.nextTaskId, autoSessionId st fb, tid, role, some desc, "pending",
          now, none⟩] := rfl

/-! ## C2: referential integrity of session ids -/

/-- C2: the claim that no operation of this system ever introduces a task or
agent row whose session_id references a missing Session row FAILS on the code:
TaskSync.create_task, called without a session id against a store whose
sessions table is empty, inserts a task row carrying a freshly generated
timestamp session id without ever inserting that session — the resulting task
row is orphaned (by contrast sync_agent's fallback does insert the missing
session first).  This theorem evaluates the code at that failing input. -/
theorem C2_create_task_orphans_on_empty_sessions :
    (TaskSync.create_task emptyStore "t1" "demo task" none none
        "2026-02-13T10:00:00" "20260213_100000").tasks ≠ [] ∧
    ¬ noOrphans
        (TaskSync.create_task emptyStore "t1" "demo task" none none
          "2026-02-13T10:00:00" "20260213_100000") := by
  constructor
  · decide
  · intro h
    exact absurd (h.1 ⟨0, "20260213_100000", "t1", none, some "demo task",
      "pending", "2026-02-13T10:00:00", none⟩ (by decide)) (by decide)

/-! ## C3: which rows does updateTask match? -/

/-- C3 counterexample: the claim says updating a taskId present in two
sessions changes only the row of the default/most-recent session ("s2" in
twoSessionStore), hence that the "s1" row keeps its old status; in fact the
source's `UPDATE tasks SET ... WHERE task_id = ?` carries no session
constraint and the "s1" row is rewritten as well. -/
theorem C3_counterexample_update_hits_other_session :
    ¬ (∀ t ∈ (TaskSync.update_task twoSessionStore "t" (some "in_progress")
          none none "2026-01-03").tasks,
        t.session_id = "s1" → t.status = "pending") := by
  intro h
  exact absurd
    (h ⟨0, "s1", "t", none, none, "in_progress", "2026-01-01", none⟩
      (by decide) rfl)
    (by decide)

/-- C3 (amended): updateTask matches rows by taskId across ALL sessions —
every row with the given taskId is updated regardless of its session, rows
with a different taskId are untouched, the web store's update is the same
operation, and an update matching zero rows returns the store unchanged
(a no-op, not an error). -/
theorem C3_update_matches_every_session (st : Store) (tid s now : String)
    (hs : s ≠ "") :
    (TaskSync.update_task st tid (some s) none none now).tasks =
      st.tasks.map
        (fun t =>
          if t.task_id = tid then
            { t with
                status := s,
                completed_at := if s = "completed" then some now else t.completed_at }
          else t) ∧
    WebProjectState.update_task st tid (some s) none none now =
      TaskSync.update_task st tid (some s) none none now ∧
    ((∀ t ∈ st.tasks, t.task_id ≠ tid) →
      TaskSync.update_task st tid (some s) none none now = st) := by
  refine ⟨?_, rfl, ?_⟩
  · rw [update_task_tasks_eq]
    apply List.map_congr_left
    intro t ht
    by_cases h : t.task_id = tid
    · have hbs : (s != "") = true := by simpa using hs
      have hbt : (t.task_id == tid) = true := by simpa using h
      rw [if_pos hbt, if_pos h]
      simp only [updateTaskRow]
      rw [if_pos hbs]
      by_cases hc : s = "completed"
      · have hcb : (s == "completed") = true := by simpa using hc
        rw [if_pos hcb, if_pos hc]
      · have hcb : ¬ (s == "completed") = true := by simpa using hc
        rw [if_neg hcb, if_neg hc]
    · have hbt : ¬ (t.task_id == tid) = true := by simpa using h
      rw [if_neg hbt, if_neg h]
  · intro hno
    have hguard : (optTruthy (some s) || optTruthy none || optTruthy none) = true := by
      simp [optTruthy, hs]
    have hmap : st.tasks.map
        (fun r => if r.task_id == tid then updateTaskRow (some s) none none now r else r) =
          st.tasks := by
      conv_rhs => rw [← List.map_id st.tasks]
      apply List.map_congr_left
      intro t ht
      have h2 : ¬ t.task_id = tid := hno t ht
      simp [h2, beq_iff_eq]
    unfold TaskSync.update_task
    rw [if_pos hguard, hmap]

/-- C3 witness: the amended theorem applied to the concrete two-session
store. -/
theorem C3_update_matches_every_session_witness :
    ("in_progress" : String) ≠ "" ∧
    ((TaskSync.update_task twoSessionStore "t" (some "in_progress") none none
        "2026-01-03").tasks =
      twoSessionStore.tasks.map
        (fun t =>
          if t.task_id = "t" then
            { t with
                status := "in_progress",
                completed_at :=
                  if "in_progress" = "completed" then some "2026-01-03"
                  else t.completed_at }
          else t) ∧
    WebProjectState.update_task twoSessionStore "t" (some "in_progress") none
        none "2026-01-03" =
      TaskSync.update_task twoSessionStore "t" (some "in_progress") none none
        "2026-01-03" ∧
    ((∀ t ∈ twoSessionStore.tasks, t.task_id ≠ "t") →
      TaskSync.update_task twoSessionStore "t" (some "in_progress") none none
          "2026-01-03" =
        twoSessionStore)) :=
  ⟨by decide,
    C3_update_matches_every_session twoSessionStore "t" "in_progress"
      "2026-01-03" (by decide)⟩

/-! ## C6: addTask permits duplicates; deleteTask removes all matches -/

/-- C6: addTask performs no duplicate check — two addTask calls with the same
taskId in the same session append two distinct rows (they differ in their
auto-assigned primary key), and deleteTask with that taskId then removes every
row whose task_id matches, leaving exactly the rows with other task_ids. -/
theorem C6_addTask_no_duplicate_check (st : Store) (sid tid now1 now2 : String)
    (role1 role2 desc1 desc2 : Option String) :
    ∃ a b : TaskRow,
      (ProjectState.add_task (ProjectState.add_task st sid tid role1 desc1 now1)
          sid tid role2 desc2 now2).tasks = st.tasks ++ [a, b] ∧
      a ≠ b ∧ a.task_id = tid ∧ b.task_id = tid ∧
      a.session_id = sid ∧ b.session_id = sid ∧
      (TaskSync.delete_task
          (ProjectState.add_task (ProjectState.add_task st sid tid role1 desc1 now1)
            sid tid role2 desc2 now2) tid).tasks =
        st.tasks.filter (fun t => t.task_id != tid) := by
  refine ⟨⟨st.nextTaskId, sid, tid, role1, desc1, "pending", now1, none⟩,
    ⟨st.nextTaskId + 1, sid, tid, role2, desc2, "pending", now2, none⟩,
    ?_, ?_, rfl, rfl, rfl, rfl, ?_⟩
  · simp [ProjectState.add_task]
  · intro h
    have h2 := congrArg TaskRow.id h
    simp only at h2
    omega
  · show ((ProjectState.add_task (ProjectState.add_task st sid tid role1 desc1 now1)
        sid tid role2 desc2 now2).tasks.filter (fun t => t.task_id != tid)) =
      st.tasks.filter (fun t => t.task_id != tid)
    have htasks : (ProjectState.add_task
        (ProjectState.add_task st sid tid role1 desc1 now1)
          sid tid role2 desc2 now2).tasks =
        st.tasks ++ [⟨st.nextTaskId, sid, tid, role1, desc1, "pending", now1, none⟩,
          ⟨st.nextTaskId + 1, sid, tid, role2, desc2, "pending", now2, none⟩] := by
      simp [ProjectState.add_task]
    rw [htasks, List.filter_append]
    simp

/-! ## C7: partial update preserves untouched fields -/

/-- C7: a status-only update leaves every row's description and agent_role at
their prior values; a role-only update leaves status, description and
completed_at unchanged; a description-only update leaves status, agent_role
and completed_at unchanged; and the web store's update is the identical
operation. -/
theorem C7_partial_update_preserves_untouched_fields (st : Store)
    (tid now : String) (s role d : Option String) :
    ((TaskSync.update_task st tid s none none now).tasks.map
        (fun t => (t.agent_role, t.description)) =
      st.tasks.map (fun t => (t.agent_role, t.description))) ∧
    ((TaskSync.update_task st tid none role none now).tasks.map
        (fun t => (t.status, t.description, t.completed_at)) =
      st.tasks.map (fun t => (t.status, t.description, t.completed_at))) ∧
    ((TaskSync.update_task st tid none none d now).tasks.map
        (fun t => (t.status, t.agent_role, t.completed_at)) =
      st.tasks.map (fun t => (t.status, t.agent_role, t.completed_at))) ∧
    (WebProjectState.update_task st tid s none none now =
      TaskSync.update_task st tid s none none now) := by
  refine ⟨?_, ?_, ?_, rfl⟩
  · rw [update_task_tasks_eq, List.map_map]
    apply List.map_congr_left
    intro t ht
    show (fun t => (t.agent_role, t.description))
        (if t.task_id == tid then updateTaskRow s none none now t else t) =
      (t.agent_role, t.description)
    split
    · exact Prod.ext (updateTaskRow_role_none s none now t)
        (updateTaskRow_desc_none s none now t)
    · rfl
  · rw [update_task_tasks_eq, List.map_map]
    apply List.map_congr_left
    intro t ht
    show (fun t => (t.status, t.description, t.completed_at))
        (if t.task_id == tid then updateTaskRow none role none now t else t) =
      (t.status, t.description, t.completed_at)
    split
    · exact Prod.ext (updateTaskRow_status_none role none now t).1
        (Prod.ext (updateTaskRow_desc_none none role now t)
          (updateTaskRow_status_none role none now t).2)
    · rfl
  · rw [update_task_tasks_eq, List.map_map]
    apply List.map_congr_left
    intro t ht
    show (fun t => (t.status, t.agent_role, t.completed_at))
        (if t.task_id == tid then updateTaskRow none none d now t else t) =
      (t.status, t.agent_role, t.completed_at)
    split
    · exact Prod.ext (updateTaskRow_status_none none d now t).1
        (Prod.ext (updateTaskRow_role_none none d now t)
          (updateTaskRow_status_none none d now t).2)
    · rfl

/-! ## C5: completed_at stamping -/

/-- Row update with status 'completed' rewrites exactly status and
completed_at. -/
theorem updateTaskRow_completed (now : String) (r : TaskRow) :
    updateTaskRow (some "completed") none none now r =
      { r with status := "completed", completed_at := some now } := by
  unfold updateTaskRow
  dsimp only
  rw [if_pos (by decide), if_pos (by decide)]

/-- A row update whose status argument is not 'completed' leaves completed_at
untouched. -/
theorem updateTaskRow_completed_at_ne (s role d : Option String) (now : String)
    (r : TaskRow) (h : s ≠ some "completed") :
    (updateTaskRow s role d now r).completed_at = r.completed_at := by
  cases s with
  | none => exact (updateTaskRow_status_none role d now r).2
  | some v =>
      have hv : ¬ (v == "completed") = true := by
        intro hb
        exact h (by rw [show v = "completed" from by simpa using hb])
      unfold updateTaskRow
      dsimp only
      by_cases hvb : (v != "") = true
      · rw [if_pos hvb, if_neg hv]
        cases role <;> cases d <;> dsimp <;> (repeat' split) <;> rfl
      · rw [if_neg hvb]
        cases role <;> cases d <;> dsimp <;> (repeat' split) <;> rfl

/-- Every row matched by a status-'completed' update ends with status
'completed' and completed_at stamped to the supplied current time. -/
theorem update_completed_marks (st : Store) (tid now : String) :
    ∀ t ∈ (TaskSync.update_task st tid (some "completed") none none now).tasks,
      t.task_id = tid → t.status = "completed" ∧ t.completed_at = some now := by
  intro t ht htid
  rw [update_task_tasks_eq] at ht
  rcases List.mem_map.mp ht with ⟨t0, ht0, rfl⟩
  by_cases h : (t0.task_id == tid) = true
  · rw [if_pos h, updateTaskRow_completed]
    exact ⟨rfl, rfl⟩
  · rw [if_neg h] at htid
    exact absurd (by simpa using htid) h

/-- C5: an update whose status is 'completed' stamps completed_at with the
current time in the same update for every matched row; repeating the
completion re-stamps completed_at to the new current time; an update whose
status is anything else leaves every row's completed_at untouched; and
ProjectState.complete_task stamps status and completed_at on the rows of its
own session. -/
theorem C5_completed_at_stamping (st : Store) (tid sid now now2 : String)
    (s role d : Option String) :
    (∀ t ∈ (TaskSync.update_task st tid (some "completed") none none now).tasks,
        t.task_id = tid → t.status = "completed" ∧ t.completed_at = some now) ∧
    (∀ t ∈ (TaskSync.update_task
          (TaskSync.update_task st tid (some "completed") none none now)
          tid (some "completed") none none now2).tasks,
        t.task_id = tid → t.status = "completed" ∧ t.completed_at = some now2) ∧
    (s ≠ some "completed" →
      (TaskSync.update_task st tid s role d now).tasks.map
          (fun t => t.completed_at) =
        st.tasks.map (fun t => t.completed_at)) ∧
    (∀ t ∈ (ProjectState.complete_task st sid tid now).tasks,
        t.task_id = tid → t.session_id = sid →
          t.status = "completed" ∧ t.completed_at = some now) := by
  refine ⟨update_completed_marks st tid now,
    update_completed_marks
      (TaskSync.update_task st tid (some "completed") none none now) tid now2,
    ?_, ?_⟩
  · intro hne
    rw [update_task_tasks_eq, List.map_map]
    apply List.map_congr_left
    intro t ht
    show (fun t => t.completed_at)
        (if t.task_id == tid then updateTaskRow s role d now t else t) =
      t.completed_at
    split
    · exact updateTaskRow_completed_at_ne s role d now t hne
    · rfl
  · intro t ht h1 h2
    unfold ProjectState.complete_task at ht
    dsimp only at ht
    rcases List.mem_map.mp ht with ⟨t0, ht0, rfl⟩
    by_cases h : (t0.task_id == tid && t0.session_id == sid) = true
    · rw [if_pos h]
      exact ⟨rfl, rfl⟩
    · rw [if_neg h] at h1 h2
      exfalso
      apply h
      simp [h1, h2]

/-- C5 witness: the stamping behaviour evaluated on the concrete two-session
store. -/
theorem C5_completed_at_stamping_witness :
    (∀ t ∈ (TaskSync.update_task twoSessionStore "t" (some "completed") none
          none "N1").tasks,
        t.task_id = "t" → t.status = "completed" ∧ t.completed_at = some "N1") ∧
    (∀ t ∈ (TaskSync.update_task
          (TaskSync.update_task twoSessionStore "t" (some "completed") none none
            "N1")
          "t" (some "completed") none none "N2").tasks,
        t.task_id = "t" → t.status = "completed" ∧ t.completed_at = some "N2") ∧
    ((some "in_progress" : Option String) ≠ some "completed" →
      (TaskSync.update_task twoSessionStore "t" (some "in_progress") none none
            "N1").tasks.map (fun t => t.completed_at) =
        twoSessionStore.tasks.map (fun t => t.completed_at)) ∧
    (∀ t ∈ (ProjectState.complete_task twoSessionStore "s1" "t" "N1").tasks,
        t.task_id = "t" → t.session_id = "s1" →
          t.status = "completed" ∧ t.completed_at = some "N1") :=
  C5_completed_at_stamping twoSessionStore "t" "s1" "N1" "N2"
    (some "in_progress") none none

/-! ## C9: update_agent_status is best-effort and matches by agent_id -/

/-- C9: update_agent_status matches rows by the external agent_id column (a
row with NULL agent_id or a different agent_id is untouched, whatever its
internal record id), touches nothing else in the store, reports found exactly
when some row matched, and on a miss returns the store unchanged while
reporting not-found — no exception path exists. -/
theorem C9_update_agent_status_best_effort (st : Store) (aid s : String) :
    ((update_agent_status st aid s).1.agents =
      st.agents.map
        (fun a => if a.agent_id = some aid then { a with status := s } else a)) ∧
    ((update_agent_status st aid s).1.tasks = st.tasks) ∧
    ((update_agent_status st aid s).1.sessions = st.sessions) ∧
    ((update_agent_status st aid s).2 = true ↔
      ∃ a ∈ st.agents, a.agent_id = some aid) ∧
    ((∀ a ∈ st.agents, a.agent_id ≠ some aid) →
      (update_agent_status st aid s).1 = st ∧
      (update_agent_status st aid s).2 = false) := by
  refine ⟨?_, rfl, rfl, ?_, ?_⟩
  · apply List.map_congr_left
    intro a ha
    by_cases h : a.agent_id = some aid
    · rw [if_pos (by simpa using h), if_pos h]
    · rw [if_neg (by simpa using h), if_neg h]
  · show (st.agents.any (fun a => a.agent_id == some aid)) = true ↔
      ∃ a ∈ st.agents, a.agent_id = some aid
    simp [List.any_eq_true]
  · intro h
    constructor
    · have hmap : st.agents.map
          (fun a => if a.agent_id == some aid then { a with status := s } else a) =
            st.agents := by
        conv_rhs => rw [← List.map_id st.agents]
        apply List.map_congr_left
        intro a ha
        rw [if_neg (by simpa using h a ha)]
        rfl
      unfold update_agent_status
      dsimp only
      rw [hmap]
    · show (st.agents.any (fun a => a.agent_id == some aid)) = false
      rw [List.any_eq_false]
      intro a ha
      simpa using h a ha

/-- C9 witness: the best-effort update evaluated on a concrete store, both on
a miss and on a hit. -/
theorem C9_update_agent_status_witness :
    ((update_agent_status oneAgentStore "ghost" "retired").1.agents =
      oneAgentStore.agents.map
        (fun a =>
          if a.agent_id = some "ghost" then { a with status := "retired" }
          else a)) ∧
    ((update_agent_status oneAgentStore "ghost" "retired").1.tasks =
      oneAgentStore.tasks) ∧
    ((update_agent_status oneAgentStore "ghost" "retired").1.sessions =
      oneAgentStore.sessions) ∧
    ((update_agent_status oneAgentStore "ghost" "retired").2 = true ↔
      ∃ a ∈ oneAgentStore.agents, a.agent_id = some "ghost") ∧
    ((∀ a ∈ oneAgentStore.agents, a.agent_id ≠ some "ghost") →
      (update_agent_status oneAgentStore "ghost" "retired").1 = oneAgentStore ∧
      (update_agent_status oneAgentStore "ghost" "retired").2 = false) :=
  C9_update_agent_status_best_effort oneAgentStore "ghost" "retired"

/-! ## C10: empty-string arguments act like absent ones; no field is cleared -/

/-- A truthy status argument sets the status column to its value. -/
theorem updateTaskRow_status_set (v : String) (role d : Option String)
    (now : String) (r : TaskRow) (hv : (v != "") = true) :
    (updateTaskRow (some v) role d now r).status = v := by
  unfold updateTaskRow
  dsimp only
  rw [if_pos hv]
  cases role <;> cases d <;> dsimp <;> (repeat' split) <;> rfl

/-- An empty-string status argument contributes no SET clause: the status
column keeps its prior value. -/
theorem updateTaskRow_status_empty (role d : Option String) (now : String)
    (r : TaskRow) :
    (updateTaskRow (some "") role d now r).status = r.status := by
  unfold updateTaskRow
  dsimp only
  rw [if_neg (by decide)]
  cases role <;> cases d <;> dsimp <;> (repeat' split) <;> rfl

/-- A truthy agent_role argument sets the agent_role column to its value. -/
theorem updateTaskRow_role_set (s : Option String) (v : String)
    (d : Option String) (now : String) (r : TaskRow) (hv : (v != "") = true) :
    (updateTaskRow s (some v) d now r).agent_role = some v := by
  unfold updateTaskRow
  cases s <;> cases d <;> dsimp <;> (repeat' split) <;> simp_all

/-- An empty-string agent_role argument leaves the agent_role column alone. -/
theorem updateTaskRow_role_empty (s d : Option String) (now : String)
    (r : TaskRow) :
    (updateTaskRow s (some "") d now r).agent_role = r.agent_role := by
  unfold updateTaskRow
  cases s <;> cases d <;> dsimp <;> (repeat' split) <;> simp_all

/-- A truthy description argument sets the description column to its value. -/
theorem updateTaskRow_desc_set (s role : Option String) (v : String)
    (now : String) (r : TaskRow) (hv : (v != "") = true) :
    (updateTaskRow s role (some v) now r).description = some v := by
  unfold updateTaskRow
  cases s <;> cases role <;> dsimp <;> (repeat' split) <;> simp_all

/-- An empty-string description argument leaves the description column alone. -/
theorem updateTaskRow_desc_empty (s role : Option String) (now : String)
    (r : TaskRow) :
    (updateTaskRow s role (some "") now r).description = r.description := by
  unfold updateTaskRow
  cases s <;> cases role <;> dsimp <;> (repeat' split) <;> simp_all

/-- A row whose status is non-empty keeps a non-empty status through any row
update. -/
theorem updateTaskRow_status_nonempty (s role d : Option String) (now : String)
    (r : TaskRow) (h : r.status ≠ "") :
    (updateTaskRow s role d now r).status ≠ "" := by
  cases s with
  | none => rw [(updateTaskRow_status_none role d now r).1]; exact h
  | some v =>
      by_cases hv : (v != "") = true
      · rw [updateTaskRow_status_set v role d now r hv]
        simpa using hv
      · have : v = "" := by simpa using hv
        subst this
        rw [updateTaskRow_status_empty role d now r]
        exact h

/-- A row whose agent_role is not the empty string keeps that property. -/
theorem updateTaskRow_role_nonempty (s role d : Option String) (now : String)
    (r : TaskRow) (h : r.agent_role ≠ some "") :
    (updateTaskRow s role d now r).agent_role ≠ some "" := by
  cases role with
  | none => rw [updateTaskRow_role_none s d now r]; exact h
  | some v =>
      by_cases hv : (v != "") = true
      · rw [updateTaskRow_role_set s v d now r hv]
        have : v ≠ "" := by simpa using hv
        simpa using this
      · have : v = "" := by simpa using hv
        subst this
        rw [updateTaskRow_role_empty s d now r]
        exact h

/-- A row whose description is not the empty string keeps that property. -/
theorem updateTaskRow_desc_nonempty (s role d : Option String) (now : String)
    (r : TaskRow) (h : r.description ≠ some "") :
    (updateTaskRow s role d now r).description ≠ some "" := by
  cases d with
  | none => rw [updateTaskRow_desc_none s role now r]; exact h
  | some v =>
      by_cases hv : (v != "") = true
      · rw [updateTaskRow_desc_set s role v now r hv]
        have : v ≠ "" := by simpa using hv
        simpa using this
      · have : v = "" := by simpa using hv
        subst this
        rw [updateTaskRow_desc_empty s role now r]
        exact h

/-- C10: an updateTask call whose supplied values are all absent or empty
performs no write and returns the store unchanged (in both the TaskSync and
the web store), and consequently updateTask can never clear a field to an
empty value: non-empty statuses stay non-empty, and agent_role / description
are never set to the empty string. -/
theorem C10_empty_arguments_are_absent (st : Store) (tid now : String)
    (s role d : Option String) :
    ((s = none ∨ s = some "") → (role = none ∨ role = some "") →
      (d = none ∨ d = some "") →
      TaskSync.update_task st tid s role d now = st ∧
      WebProjectState.update_task st tid s role d now = st) ∧
    ((∀ t ∈ st.tasks, t.status ≠ "") →
      ∀ t ∈ (TaskSync.update_task st tid s role d now).tasks, t.status ≠ "") ∧
    ((∀ t ∈ st.tasks, t.agent_role ≠ some "") →
      ∀ t ∈ (TaskSync.update_task st tid s role d now).tasks,
        t.agent_role ≠ some "") ∧
    ((∀ t ∈ st.tasks, t.description ≠ some "") →
      ∀ t ∈ (TaskSync.update_task st tid s role d now).tasks,
        t.description ≠ some "") := by
  refine ⟨?_, ?_, ?_, ?_⟩
  · intro hs hr hd
    have hgs := (optTruthy_eq_false_iff s).mpr hs
    have hgr := (optTruthy_eq_false_iff role).mpr hr
    have hgd := (optTruthy_eq_false_iff d).mpr hd
    constructor
    · unfold TaskSync.update_task
      rw [hgs, hgr, hgd]
      simp
    · rw [web_update_task_eq]
      unfold TaskSync.update_task
      rw [hgs, hgr, hgd]
      simp
  · intro h t ht
    rw [update_task_tasks_eq] at ht
    rcases List.mem_map.mp ht with ⟨t0, ht0, rfl⟩
    split
    · exact updateTaskRow_status_nonempty s role d now t0 (h t0 ht0)
    · exact h t0 ht0
  · intro h t ht
    rw [update_task_tasks_eq] at ht
    rcases List.mem_map.mp ht with ⟨t0, ht0, rfl⟩
    split
    · exact updateTaskRow_role_nonempty s role d now t0 (h t0 ht0)
    · exact h t0 ht0
  · intro h t ht
    rw [update_task_tasks_eq] at ht
    rcases List.mem_map.mp ht with ⟨t0, ht0, rfl⟩
    split
    · exact updateTaskRow_desc_nonempty s role d now t0 (h t0 ht0)
    · exact h t0 ht0

/-- C10 witness: all-empty updates evaluated on the concrete two-session
store. -/
theorem C10_empty_arguments_are_absent_witness :
    (((some "" : Option String) = none ∨ (some "" : Option String) = some "") →
      ((none : Option String) = none ∨ (none : Option String) = some "") →
      ((some "" : Option String) = none ∨ (some "" : Option String) = some "") →
      TaskSync.update_task twoSessionStore "t" (some "") none (some "") "N" =
        twoSessionStore ∧
      WebProjectState.update_task twoSessionStore "t" (some "") none (some "")
          "N" =
        twoSessionStore) ∧
    ((∀ t ∈ twoSessionStore.tasks, t.status ≠ "") →
      ∀ t ∈ (TaskSync.update_task twoSessionStore "t" (some "") none (some "")
          "N").tasks, t.status ≠ "") ∧
    ((∀ t ∈ twoSessionStore.tasks, t.agent_role ≠ some "") →
      ∀ t ∈ (TaskSync.update_task twoSessionStore "t" (some "") none (some "")
          "N").tasks, t.agent_role ≠ some "") ∧
    ((∀ t ∈ twoSessionStore.tasks, t.description ≠ some "") →
      ∀ t ∈ (TaskSync.update_task twoSessionStore "t" (some "") none (some "")
          "N").tasks, t.description ≠ some "") :=
  C10_empty_arguments_are_absent twoSessionStore "t" "N" (some "") none
    (some "")

/-! ## C4: the completed-task count is the number of completed rows -/

/-- get_completed_tasks_count computes, on any store, the number of task rows
of the given session whose status is 'completed'. -/
theorem completed_count_spec (st : Store) (sid : String) :
    ProjectState.get_completed_tasks_count st sid =
      (st.tasks.filter
        (fun t => decide (t.session_id = sid ∧ t.status = "completed"))).length := by
  unfold ProjectState.get_completed_tasks_count
  congr 1
  apply List.filter_congr
  intro t ht
  by_cases h1 : t.session_id = sid <;> by_cases h2 : t.status = "completed" <;>
    simp [h1, h2]

/-- C4: after any interleaving of addTask, updateTask, completeTask and
deleteTask starting from a fresh store, getCompletedTaskCount for any session
equals the number of task rows of that session whose status is 'completed'. -/
theorem C4_completed_count_after_any_interleaving (ops : List StoreOp)
    (sid : String) :
    ProjectState.get_completed_tasks_count (applyOps emptyStore ops) sid =
      ((applyOps emptyStore ops).tasks.filter
        (fun t => decide (t.session_id = sid ∧ t.status = "completed"))).length :=
  completed_count_spec (applyOps emptyStore ops) sid

/-! ## C8: malformed top level and identifier-less records -/

/-- A record without a truthy identifier is skipped by the coordinator's
reconciler: no store effect, no count effect. -/
theorem syncOneRecord_skip (now fb : String) (acc : Store × Nat)
    (r : TaskRecord) (h : optTruthy (recIdent r) = false) :
    syncOneRecord now fb acc r = acc := by
  unfold syncOneRecord
  rw [h]
  rfl

/-- A record without a truthy identifier is skipped by the standalone sync
script as well. -/
theorem syncFromJsonOne_skip (now fb : String) (acc : Store × Nat)
    (r : TaskRecord) (h : optTruthy (recIdent r) = false) :
    syncFromJsonOne now fb acc r = acc := by
  unfold syncFromJsonOne
  rw [h]
  rfl

/-- C8: a top level that is not a sequence of records makes both reconcilers
report and return zero synced with no store effect (no exception reaches the
caller: both functions are total and return the untouched store), and a
record carrying no identifier under either accepted key is skipped entirely —
removing it from the input list changes nothing, wherever it sits. -/
theorem C8_reject_nonlist_and_skip_idless (st : Store) (now fb : String)
    (j : TasksJson) (l1 l2 : List TaskRecord) (r : TaskRecord) :
    (j = TasksJson.notAList →
      CoordinatorAgent.sync_tasks_from_json st j now fb = (st, 0) ∧
      sync_from_json st j now fb = (st, 0)) ∧
    (optTruthy (recIdent r) = false →
      CoordinatorAgent.sync_tasks_from_json st (TasksJson.list (l1 ++ r :: l2))
          now fb =
        CoordinatorAgent.sync_tasks_from_json st (TasksJson.list (l1 ++ l2))
          now fb ∧
      sync_from_json st (TasksJson.list (l1 ++ r :: l2)) now fb =
        sync_from_json st (TasksJson.list (l1 ++ l2)) now fb) := by
  constructor
  · intro h
    subst h
    exact ⟨rfl, rfl⟩
  · intro h
    constructor
    · show (l1 ++ r :: l2).foldl (syncOneRecord now fb) (st, 0) =
        (l1 ++ l2).foldl (syncOneRecord now fb) (st, 0)
      rw [List.foldl_append, List.foldl_append, List.foldl_cons,
        syncOneRecord_skip now fb (l1.foldl (syncOneRecord now fb) (st, 0)) r h]
    · show (l1 ++ r :: l2).foldl (syncFromJsonOne now fb) (st, 0) =
        (l1 ++ l2).foldl (syncFromJsonOne now fb) (st, 0)
      rw [List.foldl_append, List.foldl_append, List.foldl_cons,
        syncFromJsonOne_skip now fb (l1.foldl (syncFromJsonOne now fb) (st, 0)) r h]

/-- C8 witness: the rejection and skipping behaviour at concrete inputs. -/
theorem C8_reject_nonlist_and_skip_idless_witness :
    (CoordinatorAgent.sync_tasks_from_json emptyStore TasksJson.notAList "N" "F" =
        (emptyStore, 0) ∧
      sync_from_json emptyStore TasksJson.notAList "N" "F" = (emptyStore, 0)) ∧
    (CoordinatorAgent.sync_tasks_from_json emptyStore
        (TasksJson.list ([] ++ wRecNoId :: [wRecBare])) "N" "F" =
      CoordinatorAgent.sync_tasks_from_json emptyStore
        (TasksJson.list ([] ++ [wRecBare])) "N" "F" ∧
      sync_from_json emptyStore (TasksJson.list ([] ++ wRecNoId :: [wRecBare]))
          "N" "F" =
        sync_from_json emptyStore (TasksJson.list ([] ++ [wRecBare])) "N" "F") :=
  ⟨(C8_reject_nonlist_and_skip_idless emptyStore "N" "F" TasksJson.notAList []
      [wRecBare] wRecNoId).1 rfl,
    (C8_reject_nonlist_and_skip_idless emptyStore "N" "F" TasksJson.notAList []
      [wRecBare] wRecNoId).2 (by decide)⟩

/-! ## C1: reconciliation idempotence machinery -/

/-- A record whose status key value is not the empty string resolves to a
non-empty status whenever it resolves to a non-default one. -/
theorem recStatus_ne_empty (r : TaskRecord) (h1 : r.status ≠ some "")
    (h2 : recStatus r ≠ "pending") : recStatus r ≠ "" := by
  cases hs : r.status with
  | none =>
      exfalso
      apply h2
      unfold recStatus
      rw [hs]
      rfl
  | some v =>
      unfold recStatus
      rw [hs]
      intro hv
      simp only [Option.getD_some] at hv
      exact h1 (by rw [hs, hv])

/-- Counting rows with a given task_id is counting that id in the projected
id column. -/
theorem filter_tid_length (l : List TaskRow) (x : String) :
    (l.filter (fun t => t.task_id == x)).length =
      (l.map (fun t => t.task_id)).count x := by
  rw [← List.countP_eq_length_filter]
  show List.countP (fun t => t.task_id == x) l =
    List.countP (fun b => b == x) (l.map (fun t => t.task_id))
  rw [List.countP_map]
  rfl

/-- When no row carries the record's identifier, the create phase appends one
pending row and increments the count. -/
theorem syncCreateStep_fresh (now fb : String) (st : Store) (n : Nat)
    (r : TaskRecord) (hfresh : ∀ t ∈ st.tasks, t.task_id ≠ tidOf r) :
    syncCreateStep now fb (st, n) r =
      (TaskSync.create_task st (tidOf r) (recDescription r) r.owner none now fb,
        n + 1) := by
  have h : ¬ ((st, n).1.tasks.any (fun t => t.task_id == tidOf r) = true) := by
    intro hany
    rcases List.any_eq_true.mp hany with ⟨t, ht, hbt⟩
    exact hfresh t ht (by simpa using hbt)
  unfold syncCreateStep
  rw [if_neg h]

/-- When some row already carries the record's identifier, the create phase is
the identity. -/
theorem syncCreateStep_existing (now fb : String) (st : Store) (n : Nat)
    (r : TaskRecord)
    (hmem : tidOf r ∈ st.tasks.map (fun t => t.task_id)) :
    syncCreateStep now fb (st, n) r = (st, n) := by
  have h : ((st, n).1.tasks.any (fun t => t.task_id == tidOf r)) = true := by
    rw [List.any_eq_true]
    rcases List.mem_map.mp hmem with ⟨t, ht, htid⟩
    exact ⟨t, ht, by simpa using htid⟩
  unfold syncCreateStep
  rw [if_pos h]

/-- The status phase never changes the reported count. -/
theorem syncStatusStep_snd (now : String) (acc : Store × Nat) (r : TaskRecord) :
    (syncStatusStep now acc r).2 = acc.2 := by
  unfold syncStatusStep
  split <;> rfl

/-- The status phase never changes the task_id column of any row. -/
theorem syncStatusStep_map_task_id (now : String) (acc : Store × Nat)
    (r : TaskRecord) :
    (syncStatusStep now acc r).1.tasks.map (fun t => t.task_id) =
      acc.1.tasks.map (fun t => t.task_id) := by
  unfold syncStatusStep
  split
  · exact update_task_map_task_id acc.1 (tidOf r) (some (recStatus r)) none none
      now
  · rfl

/-- Processing an identified record against a store with no matching row
appends exactly one row carrying the record's identifier and resolved status,
and increments the reported count. -/
theorem syncOneRecord_fresh_step (now fb : String) (st : Store) (n : Nat)
    (r : TaskRecord) (hid : optTruthy (recIdent r) = true)
    (hfresh : ∀ t ∈ st.tasks, t.task_id ≠ tidOf r)
    (hne : r.status ≠ some "") :
    ∃ row : TaskRow, row.task_id = tidOf r ∧ row.status = recStatus r ∧
      (syncOneRecord now fb (st, n) r).1.tasks = st.tasks ++ [row] ∧
      (syncOneRecord now fb (st, n) r).2 = n + 1 := by
  have hform : syncOneRecord now fb (st, n) r =
      syncStatusStep now
        (TaskSync.create_task st (tidOf r) (recDescription r) r.owner none now
            fb,
          n + 1)
        r := by
    unfold syncOneRecord
    rw [if_pos hid, syncCreateStep_fresh now fb st n r hfresh]
  by_cases hpend : (recStatus r != "pending") = true
  · have hupd : syncOneRecord now fb (st, n) r =
        (TaskSync.update_task
            (TaskSync.create_task st (tidOf r) (recDescription r) r.owner none
              now fb)
            (tidOf r) (some (recStatus r)) none none now,
          n + 1) := by
      rw [hform]
      unfold syncStatusStep
      rw [if_pos hpend]
    have hsne : recStatus r ≠ "" :=
      recStatus_ne_empty r hne (by simpa using hpend)
    refine ⟨updateTaskRow (some (recStatus r)) none none now
        ⟨st.nextTaskId, autoSessionId st fb, tidOf r, r.owner,
          some (recDescription r), "pending", now, none⟩, ?_, ?_, ?_, ?_⟩
    · rw [updateTaskRow_task_id]
    · exact updateTaskRow_status_set (recStatus r) none none now _
        (by simpa using hsne)
    · rw [hupd]
      show (TaskSync.update_task
          (TaskSync.create_task st (tidOf r) (recDescription r) r.owner none
            now fb)
          (tidOf r) (some (recStatus r)) none none now).tasks = _
      rw [update_task_tasks_eq, create_task_tasks_eq, List.map_append]
      congr 1
      · conv_rhs => rw [← List.map_id st.tasks]
        apply List.map_congr_left
        intro t ht
        rw [if_neg (by simpa using hfresh t ht)]
        rfl
      · rw [List.map_singleton, if_pos (by simp)]
    · rw [hupd]
  · have hnoupd : syncOneRecord now fb (st, n) r =
        (TaskSync.create_task st (tidOf r) (recDescription r) r.owner none now
            fb,
          n + 1) := by
      rw [hform]
      unfold syncStatusStep
      rw [if_neg hpend]
    have hpeq : recStatus r = "pending" := by simpa using hpend
    refine ⟨⟨st.nextTaskId, autoSessionId st fb, tidOf r, r.owner,
      some (recDescription r), "pending", now, none⟩, rfl, hpeq.symm, ?_, ?_⟩
    · rw [hnoupd]
      exact create_task_tasks_eq st (tidOf r) (recDescription r) r.owner now fb
    · rw [hnoupd]

/-- Processing a record whose identifier is already present leaves the count
alone and preserves the task_id column. -/
theorem syncOneRecord_existing_step (now fb : String) (st : Store) (n : Nat)
    (r : TaskRecord)
    (hmem : optTruthy (recIdent r) = true →
      tidOf r ∈ st.tasks.map (fun t => t.task_id)) :
    (syncOneRecord now fb (st, n) r).2 = n ∧
    (syncOneRecord now fb (st, n) r).1.tasks.map (fun t => t.task_id) =
      st.tasks.map (fun t => t.task_id) := by
  by_cases hid : optTruthy (recIdent r) = true
  · have hform : syncOneRecord now fb (st, n) r =
        syncStatusStep now (st, n) r := by
      unfold syncOneRecord
      rw [if_pos hid, syncCreateStep_existing now fb st n r (hmem hid)]
    rw [hform]
    exact ⟨syncStatusStep_snd now (st, n) r,
      syncStatusStep_map_task_id now (st, n) r⟩
  · rw [syncOneRecord_skip now fb (st, n) r (by simpa using hid)]
    exact ⟨rfl, rfl⟩

/-- Folding the coordinator's loop over a batch of identified records with
pairwise-distinct identifiers, all fresh for the store: the count grows by the
batch size, the id column gains exactly the batch's identifiers, rows with any
other id are untouched, and every row carrying a record's identifier ends with
that record's resolved status. -/
theorem sync_fresh_aux (now fb : String) (records : List TaskRecord) :
    ∀ (st : Store) (n : Nat),
    (∀ r ∈ records, optTruthy (recIdent r) = true) →
    (records.map tidOf).Nodup →
    (∀ r ∈ records, ∀ t ∈ st.tasks, t.task_id ≠ tidOf r) →
    (∀ r ∈ records, r.status ≠ some "") →
    (records.foldl (syncOneRecord now fb) (st, n)).2 = n + records.length ∧
    (records.foldl (syncOneRecord now fb) (st, n)).1.tasks.map
        (fun t => t.task_id) =
      st.tasks.map (fun t => t.task_id) ++ records.map tidOf ∧
    (∀ x : String, x ∉ records.map tidOf →
      (records.foldl (syncOneRecord now fb) (st, n)).1.tasks.filter
          (fun t => t.task_id == x) =
        st.tasks.filter (fun t => t.task_id == x)) ∧
    (∀ r ∈ records,
      ∀ t ∈ (records.foldl (syncOneRecord now fb) (st, n)).1.tasks,
        t.task_id = tidOf r → t.status = recStatus r) := by
  induction records with
  | nil =>
      intro st n _ _ _ _
      refine ⟨rfl, by simp, fun x hx => rfl, fun r hr => absurd hr (by simp)⟩
  | cons r rest ih =>
      intro st n htr hnd hfresh hne
      rw [List.map_cons] at hnd
      obtain ⟨hnotin, hndrest⟩ := List.nodup_cons.mp hnd
      obtain ⟨row, hrowid, hrowstat, htasks, hcount⟩ :=
        syncOneRecord_fresh_step now fb st n r (htr r (List.mem_cons_self r rest))
          (hfresh r (List.mem_cons_self r rest)) (hne r (List.mem_cons_self r rest))
      have hfresh2 : ∀ r2 ∈ rest,
          ∀ t ∈ (syncOneRecord now fb (st, n) r).1.tasks,
            t.task_id ≠ tidOf r2 := by
        intro r2 hr2 t ht
        rw [htasks] at ht
        rcases List.mem_append.mp ht with h | h
        · exact hfresh r2 (List.mem_cons_of_mem r hr2) t h
        · rcases List.mem_singleton.mp h with rfl
          rw [hrowid]
          intro heq
          exact hnotin (heq ▸ List.mem_map_of_mem tidOf hr2)
      have hIH := ih (syncOneRecord now fb (st, n) r).1
        (syncOneRecord now fb (st, n) r).2
        (fun r2 hr2 => htr r2 (List.mem_cons_of_mem r hr2)) hndrest hfresh2
        (fun r2 hr2 => hne r2 (List.mem_cons_of_mem r hr2))
      simp only [Prod.mk.eta] at hIH
      obtain ⟨c1, c2, c3, c4⟩ := hIH
      simp only [List.foldl_cons]
      refine ⟨?_, ?_, ?_, ?_⟩
      · rw [c1, hcount, List.length_cons]
        omega
      · rw [c2, htasks, List.map_append, List.map_singleton, hrowid,
          List.map_cons]
        rw [List.append_assoc]
        rfl
      · intro x hx
        rw [List.map_cons, List.mem_cons] at hx
        push_neg at hx
        rw [c3 x hx.2, htasks, List.filter_append]
        have : ([row].filter (fun t => t.task_id == x)) = [] := by
          simp [hrowid, hx.1.symm]
        rw [this, List.append_nil]
      · intro r2 hr2 t htin htid
        rcases List.mem_cons.mp hr2 with rfl | hr2
        · have hQ : (rest.foldl (syncOneRecord now fb)
              (syncOneRecord now fb (st, n) r2)).1.tasks.filter
                (fun t => t.task_id == tidOf r2) = [row] := by
            rw [c3 (tidOf r2) hnotin, htasks, List.filter_append]
            have h1 : st.tasks.filter (fun t => t.task_id == tidOf r2) = [] := by
              rw [List.filter_eq_nil_iff]
              intro t ht
              simpa using hfresh r2 (List.mem_cons_self r2 rest) t ht
            have h2 : ([row].filter (fun t => t.task_id == tidOf r2)) = [row] := by
              simp [hrowid]
            rw [h1, h2, List.nil_append]
          have : t ∈ [row] := by
            rw [← hQ]
            exact List.mem_filter.mpr ⟨htin, by simpa using htid⟩
          rcases List.mem_singleton.mp this with rfl
          exact hrowstat
        · exact c4 r2 hr2 t htin htid

/-- Folding the coordinator's loop over records whose identifiers are all
already present: the reported count is unchanged (zero new creations) and the
id column of the tasks table is untouched. -/
theorem sync_existing_aux (now fb : String) (records : List TaskRecord) :
    ∀ (st : Store) (n : Nat),
    (∀ r ∈ records, optTruthy (recIdent r) = true →
      tidOf r ∈ st.tasks.map (fun t => t.task_id)) →
    (records.foldl (syncOneRecord now fb) (st, n)).2 = n ∧
    (records.foldl (syncOneRecord now fb) (st, n)).1.tasks.map
        (fun t => t.task_id) =
      st.tasks.map (fun t => t.task_id) := by
  induction records with
  | nil => intro st n _; exact ⟨rfl, rfl⟩
  | cons r rest ih =>
      intro st n hex
      obtain ⟨hc, hm⟩ := syncOneRecord_existing_step now fb st n r
        (fun hid => hex r (List.mem_cons_self r rest) hid)
      have hex2 : ∀ r2 ∈ rest, optTruthy (recIdent r2) = true →
          tidOf r2 ∈ (syncOneRecord now fb (st, n) r).1.tasks.map
            (fun t => t.task_id) := by
        intro r2 hr2 hid2
        rw [hm]
        exact hex r2 (List.mem_cons_of_mem r hr2) hid2
      have hIH := ih (syncOneRecord now fb (st, n) r).1
        (syncOneRecord now fb (st, n) r).2 hex2
      simp only [Prod.mk.eta] at hIH
      simp only [List.foldl_cons]
      exact ⟨by rw [hIH.1, hc], by rw [hIH.2, hm]⟩

/-- One loop iteration preserves the per-record status invariant: if every row
carrying some batch record's identifier already shows that record's resolved
status, the same holds after processing any record of the batch (the create
phase only adds a pending row for its own — unique — identifier, and the
status phase rewrites exactly the rows of that identifier to that resolved
status). -/
theorem syncOneRecord_preserves_status (now fb : String)
    (records0 : List TaskRecord) (hnd : (records0.map tidOf).Nodup)
    (hne : ∀ r ∈ records0, r.status ≠ some "")
    (acc : Store × Nat) (r0 : TaskRecord) (h0 : r0 ∈ records0)
    (hstat : ∀ r ∈ records0, ∀ t ∈ acc.1.tasks,
      t.task_id = tidOf r → t.status = recStatus r) :
    ∀ r ∈ records0, ∀ t ∈ (syncOneRecord now fb acc r0).1.tasks,
      t.task_id = tidOf r → t.status = recStatus r := by
  intro r hr t htin htid
  by_cases hid : optTruthy (recIdent r0) = true
  · have hform : syncOneRecord now fb acc r0 =
        syncStatusStep now (syncCreateStep now fb acc r0) r0 := by
      unfold syncOneRecord
      rw [if_pos hid]
    rw [hform] at htin
    have hstat1 : ∀ r1 ∈ records0,
        ∀ t1 ∈ (syncCreateStep now fb acc r0).1.tasks,
          t1.task_id = tidOf r1 →
            (t1.status = recStatus r1 ∨
              (t1.task_id = tidOf r0 ∧ t1.status = "pending")) := by
      intro r1 hr1 t1 ht1 htid1
      unfold syncCreateStep at ht1
      split at ht1
      · exact Or.inl (hstat r1 hr1 t1 ht1 htid1)
      · rw [create_task_tasks_eq] at ht1
        rcases List.mem_append.mp ht1 with h | h
        · exact Or.inl (hstat r1 hr1 t1 h htid1)
        · rcases List.mem_singleton.mp h with rfl
          exact Or.inr ⟨rfl, rfl⟩
    unfold syncStatusStep at htin
    split at htin
    · rename_i hpend
      dsimp only at htin
      rw [update_task_tasks_eq] at htin
      rcases List.mem_map.mp htin with ⟨t1, ht1, rfl⟩
      by_cases hb : (t1.task_id == tidOf r0) = true
      · rw [if_pos hb] at htid ⊢
        have hs0 : recStatus r0 ≠ "" :=
          recStatus_ne_empty r0 (hne r0 h0) (by simpa using hpend)
        have hset := updateTaskRow_status_set (recStatus r0) none none now t1
          (by simpa using hs0)
        have htid1 : tidOf r = tidOf r0 := by
          rw [← htid, updateTaskRow_task_id]
          simpa using hb
        have hrr0 : r = r0 := List.inj_on_of_nodup_map hnd hr h0 htid1
        rw [hset, hrr0]
      · rw [if_neg hb] at htid ⊢
        rcases hstat1 r hr t1 ht1 htid with h | h
        · exact h
        · exact absurd (by simpa using h.1) hb
    · rename_i hpend
      rcases hstat1 r hr t htin htid with h | h
      · exact h
      · have hpeq : recStatus r0 = "pending" := by simpa using hpend
        have htid1 : tidOf r = tidOf r0 := by rw [← htid, h.1]
        have hrr0 : r = r0 := List.inj_on_of_nodup_map hnd hr h0 htid1
        rw [h.2, hrr0, hpeq]
  · rw [syncOneRecord_skip now fb acc r0 (by simpa using hid)] at htin
    exact hstat r hr t htin htid

/-- Re-running the coordinator's loop over a whole batch preserves the
per-record status invariant. -/
theorem sync_preserves_status (now fb : String) (records0 : List TaskRecord)
    (hnd : (records0.map tidOf).Nodup)
    (hne : ∀ r ∈ records0, r.status ≠ some "")
    (st : Store) (n : Nat)
    (hstat : ∀ r ∈ records0, ∀ t ∈ st.tasks,
      t.task_id = tidOf r → t.status = recStatus r) :
    ∀ r ∈ records0,
      ∀ t ∈ (records0.foldl (syncOneRecord now fb) (st, n)).1.tasks,
        t.task_id = tidOf r → t.status = recStatus r :=
  List.foldlRecOn
    (motive := fun acc => ∀ r ∈ records0, ∀ t ∈ acc.1.tasks,
      t.task_id = tidOf r → t.status = recStatus r)
    records0 (syncOneRecord now fb) (st, n) hstat
    (fun acc hacc r0 h0 =>
      syncOneRecord_preserves_status now fb records0 hnd hne acc r0 h0 hacc)

/-- C1 counterexample: the claim quantifies over "the Reconciler", whose cited
implementations include sync_tasks_to_db.sync_from_json — but that routine
performs no existence check, so running it twice on the same single-record
input against an empty store creates the task TWICE and the second run again
reports one (not zero) synced record. -/
theorem C1_counterexample_standalone_sync_duplicates :
    ¬ ((sync_from_json
          (sync_from_json emptyStore (TasksJson.list [wRecBare]) "T1" "S1").1
          (TasksJson.list [wRecBare]) "T2" "S2").2 = 0 ∧
      ((sync_from_json
            (sync_from_json emptyStore (TasksJson.list [wRecBare]) "T1" "S1").1
            (TasksJson.list [wRecBare]) "T2" "S2").1.tasks.filter
          (fun t => t.task_id == "t1")).length = 1) := by
  intro h
  exact absurd h.1 (by decide)

/-- C1 (amended): for the coordinator's reconciler sync_tasks_from_json, on
input records that all carry a (pairwise distinct, non-empty) identifier and
no empty-string status value, running twice against an empty store creates
each task exactly once — the first run reports one creation per record and
leaves exactly one row per identifier, the second run reports zero creations,
adds no row, and after either run every row carrying a record's identifier
shows that record's resolved status. -/
theorem C1_coordinator_reconciler_idempotent (records : List TaskRecord)
    (now fb now2 fb2 : String) (st1 st2 : Store) (n1 n2 : Nat)
    (htr : ∀ r ∈ records, optTruthy (recIdent r) = true)
    (hnd : (records.map tidOf).Nodup)
    (hne : ∀ r ∈ records, r.status ≠ some "")
    (h1 : CoordinatorAgent.sync_tasks_from_json emptyStore
        (TasksJson.list records) now fb = (st1, n1))
    (h2 : CoordinatorAgent.sync_tasks_from_json st1 (TasksJson.list records)
        now2 fb2 = (st2, n2)) :
    n1 = records.length ∧
    (∀ r ∈ records,
      (st1.tasks.filter (fun t => t.task_id == tidOf r)).length = 1) ∧
    (∀ r ∈ records, ∀ t ∈ st1.tasks,
      t.task_id = tidOf r → t.status = recStatus r) ∧
    n2 = 0 ∧
    st2.tasks.length = st1.tasks.length ∧
    (∀ r ∈ records,
      (st2.tasks.filter (fun t => t.task_id == tidOf r)).length = 1) ∧
    (∀ r ∈ records, ∀ t ∈ st2.tasks,
      t.task_id = tidOf r → t.status = recStatus r) := by
  have hfresh0 : ∀ r ∈ records, ∀ t ∈ emptyStore.tasks, t.task_id ≠ tidOf r := by
    intro r hr t ht
    exact absurd ht (by simp [emptyStore])
  obtain ⟨A1, A2, A3, A4⟩ := sync_fresh_aux now fb records emptyStore 0 htr hnd
    hfresh0 hne
  have e1 : records.foldl (syncOneRecord now fb) (emptyStore, 0) = (st1, n1) := h1
  have e1s : (records.foldl (syncOneRecord now fb) (emptyStore, 0)).1 = st1 :=
    congrArg Prod.fst e1
  have e1n : (records.foldl (syncOneRecord now fb) (emptyStore, 0)).2 = n1 :=
    congrArg Prod.snd e1
  rw [e1n] at A1
  rw [e1s] at A2 A3 A4
  have hmap1 : st1.tasks.map (fun t => t.task_id) = records.map tidOf := by
    rw [A2]
    simp [emptyStore]
  have hone1 : ∀ r ∈ records,
      (st1.tasks.filter (fun t => t.task_id == tidOf r)).length = 1 := by
    intro r hr
    rw [filter_tid_length, hmap1]
    exact List.count_eq_one_of_mem hnd (List.mem_map_of_mem tidOf hr)
  have hstat1 : ∀ r ∈ records, ∀ t ∈ st1.tasks,
      t.task_id = tidOf r → t.status = recStatus r := A4
  have hex : ∀ r ∈ records, optTruthy (recIdent r) = true →
      tidOf r ∈ st1.tasks.map (fun t => t.task_id) := by
    intro r hr _
    rw [hmap1]
    exact List.mem_map_of_mem tidOf hr
  obtain ⟨B1, B2⟩ := sync_existing_aux now2 fb2 records st1 0 hex
  have e2 : records.foldl (syncOneRecord now2 fb2) (st1, 0) = (st2, n2) := h2
  have e2s : (records.foldl (syncOneRecord now2 fb2) (st1, 0)).1 = st2 :=
    congrArg Prod.fst e2
  have e2n : (records.foldl (syncOneRecord now2 fb2) (st1, 0)).2 = n2 :=
    congrArg Prod.snd e2
  rw [e2n] at B1
  rw [e2s] at B2
  have hstat2 := sync_preserves_status now2 fb2 records hnd hne st1 0 hstat1
  refine ⟨by omega, hone1, hstat1, B1, ?_, ?_, ?_⟩
  · rw [← List.length_map st2.tasks (fun t => t.task_id), B2,
      List.length_map]
  · intro r hr
    rw [filter_tid_length, B2, hmap1]
    exact List.count_eq_one_of_mem hnd (List.mem_map_of_mem tidOf hr)
  · intro r hr t htin htid
    rw [← e2s] at htin
    exact hstat2 r hr t htin htid

/-- C1 witness: the amended idempotence theorem evaluated on a concrete
two-record input (one record completed under the 'id' key, one pending under
the 'task_id' key). -/
theorem C1_coordinator_reconciler_idempotent_witness :
    (∀ r ∈ wRecords, optTruthy (recIdent r) = true) ∧
    (wRecords.map tidOf).Nodup ∧
    (∀ r ∈ wRecords, r.status ≠ some "") ∧
    ((CoordinatorAgent.sync_tasks_from_json emptyStore (TasksJson.list wRecords)
        "T1" "F1").2 = wRecords.length ∧
    (∀ r ∈ wRecords,
      ((CoordinatorAgent.sync_tasks_from_json emptyStore
          (TasksJson.list wRecords) "T1" "F1").1.tasks.filter
        (fun t => t.task_id == tidOf r)).length = 1) ∧
    (∀ r ∈ wRecords,
      ∀ t ∈ (CoordinatorAgent.sync_tasks_from_json emptyStore
          (TasksJson.list wRecords) "T1" "F1").1.tasks,
        t.task_id = tidOf r → t.status = recStatus r) ∧
    (CoordinatorAgent.sync_tasks_from_json
        (CoordinatorAgent.sync_tasks_from_json emptyStore
          (TasksJson.list wRecords) "T1" "F1").1
        (TasksJson.list wRecords) "T2" "F2").2 = 0 ∧
    (CoordinatorAgent.sync_tasks_from_json
        (CoordinatorAgent.sync_tasks_from_json emptyStore
          (TasksJson.list wRecords) "T1" "F1").1
        (TasksJson.list wRecords) "T2" "F2").1.tasks.length =
      (CoordinatorAgent.sync_tasks_from_json emptyStore
        (TasksJson.list wRecords) "T1" "F1").1.tasks.length ∧
    (∀ r ∈ wRecords,
      ((CoordinatorAgent.sync_tasks_from_json
          (CoordinatorAgent.sync_tasks_from_json emptyStore
            (TasksJson.list wRecords) "T1" "F1").1
          (TasksJson.list wRecords) "T2" "F2").1.tasks.filter
        (fun t => t.task_id == tidOf r)).length = 1) ∧
    (∀ r ∈ wRecords,
      ∀ t ∈ (CoordinatorAgent.sync_tasks_from_json
          (CoordinatorAgent.sync_tasks_from_json emptyStore
            (TasksJson.list wRecords) "T1" "F1").1
          (TasksJson.list wRecords) "T2" "F2").1.tasks,
        t.task_id = tidOf r → t.status = recStatus r)) :=
  ⟨by decide, by decide, by decide,
    C1_coordinator_reconciler_idempotent wRecords "T1" "F1" "T2" "F2"
      (CoordinatorAgent.sync_tasks_from_json emptyStore
        (TasksJson.list wRecords) "T1" "F1").1
      (CoordinatorAgent.sync_tasks_from_json
        (CoordinatorAgent.sync_tasks_from_json emptyStore
          (TasksJson.list wRecords) "T1" "F1").1
        (TasksJson.list wRecords) "T2" "F2").1
      (CoordinatorAgent.sync_tasks_from_json emptyStore
        (TasksJson.list wRecords) "T1" "F1").2
      (CoordinatorAgent.sync_tasks_from_json
        (CoordinatorAgent.sync_tasks_from_json emptyStore
          (TasksJson.list wRecords) "T1" "F1").1
        (TasksJson.list wRecords) "T2" "F2").2
      (by decide) (by decide) (by decide) rfl rfl⟩
